import Mathlib

/-!
Verification of the Profile screen of the gobarber-mobile repository
(`src/pages/Profile/index.tsx`).

The behavioural core of that file is:
  * a Yup validation schema with conditionally-required password fields
    (`handleProfile`, lines 67-85);
  * a payload builder that spreads the three password keys only when
    `old_password` is truthy (lines 99-109);
  * a submission workflow that resets field errors, validates with
    `abortEarly: false`, sends `PUT /profile`, and on success replaces the
    session user, alerts, and navigates back; validation errors are mapped
    to per-field messages, any other error becomes one generic alert
    (lines 62-132);
  * two avatar-upload callbacks (`updatePhotoFromCamera`,
    `updatePhotoFromGallery`, lines 144-189) that build a multipart body
    named `<user_id>.jpg` of type `image/jpeg` and PATCH `users/avatar`.

Side-effecting code is embedded as functions from inputs (form data plus
the outcome of the one network call each workflow performs) to a list of
`Effect`s, interpreted over an explicit `ScreenState`.
-/

/-- The `ProfileFormData` interface of `src/pages/Profile/index.tsx`
(lines 38-44): the five text fields of the form.  The unform form always
supplies every field as a string (possibly empty). -/
structure ProfileFormData where
  name : String
  email : String
  old_password : String
  password : String
  password_confirmation : String
deriving Repr, DecidableEq

/-- The session user record.  The spec's `SessionUser` holds at minimum
`id`, `name`, `email`, `avatar_url`; `handleProfile` treats the response
body opaquely, so these fields suffice for the embedding. -/
structure User where
  id : String
  name : String
  email : String
  avatar_url : String
deriving Repr, DecidableEq

/-- Split a character list at every occurrence of the separator: the
pieces between separators, in order (an empty list yields one empty
piece, like JavaScript's and Lean's `splitOn`). -/
def splitOnChar (c : Char) : List Char → List (List Char)
  | [] => [[]]
  | a :: rest =>
      match splitOnChar c rest, decide (a = c) with
      | r, true => [] :: r
      | [], false => [[a]]
      | piece :: others, false => (a :: piece) :: others

/-- Modelled from the spec: the email-shape test of `Yup.string().email()`
(an external library; §4.1 of the spec asks for "a valid email shape").
A string passes when it splits at a single `@` into a non-empty part
before it and a dot-separated domain of at least two non-empty labels.
Yup's `email` uses `excludeEmptyString`, so the empty string is handled by
`required` alone; `validateProfile` below only consults this test on
non-empty input. -/
def isEmailShape (s : String) : Bool :=
  match splitOnChar '@' s.toList with
  | [before, domain] =>
      !before.isEmpty &&
      (splitOnChar '.' domain).length ≥ 2 &&
      (splitOnChar '.' domain).all (fun lbl => !lbl.isEmpty)
  | _ => false

/-- Errors of the `name` rule: `Yup.string().required('Nome obrigatório')`
(line 68) fails exactly on the empty string. -/
def nameErrors (d : ProfileFormData) : List (String × String) :=
  if d.name = "" then [("name", "Nome obrigatório")] else []

/-- Errors of the `email` rule (lines 69-71):
`required('E-mail obrigatório').email('Digite um e-mail válido')`.
`required` fails on the empty string; the email-shape test is consulted
only on non-empty input (Yup's `email` excludes the empty string). -/
def emailErrors (d : ProfileFormData) : List (String × String) :=
  if d.email = "" then [("email", "E-mail obrigatório")]
  else if !isEmailShape d.email then [("email", "Digite um e-mail válido")]
  else []

/-- Errors of the `password` rule (lines 73-77): required with message
"Campo obrigatório" when `old_password` is non-empty
(`is: val => !!val.length`), otherwise an unconstrained string. -/
def passwordErrors (d : ProfileFormData) : List (String × String) :=
  if d.old_password ≠ "" ∧ d.password = "" then
    [("password", "Campo obrigatório")]
  else []

/-- Errors of the `password_confirmation` rule (lines 78-84): the same
conditional `required` as `password`, and on top of it
`oneOf([Yup.ref('password')], 'Confirmação incorreta')`, which compares
the value with the sibling `password` value unconditionally (Yup's
`oneOf` skips only `undefined`, and the form always supplies strings). -/
def confirmationErrors (d : ProfileFormData) : List (String × String) :=
  (if d.old_password ≠ "" ∧ d.password_confirmation = "" then
    [("password_confirmation", "Campo obrigatório")]
  else []) ++
  (if d.password_confirmation ≠ d.password then
    [("password_confirmation", "Confirmação incorreta")]
  else [])

/-- The whole schema (lines 67-85) run with `abortEarly: false`
(lines 87-89): every field is evaluated and all failures are collected;
the input is valid exactly when the list is empty. -/
def validateProfile (d : ProfileFormData) : List (String × String) :=
  nameErrors d ++ emailErrors d ++ passwordErrors d ++ confirmationErrors d

/-- The payload builder of `handleProfile` (lines 99-109): the object
`{ name, email, ...(old_password ? { old_password, password,
password_confirmation } : {}) }`.  JavaScript string truthiness makes the
spread conditional on `old_password` being non-empty.  The payload is a
list of key-value pairs in construction order. -/
def buildFormData (d : ProfileFormData) : List (String × String) :=
  [("name", d.name), ("email", d.email)] ++
  (if d.old_password = "" then []
   else
    [("old_password", d.old_password),
     ("password", d.password),
     ("password_confirmation", d.password_confirmation)])

/-- Keep the first entry for each key, dropping later ones (`seen` holds
the keys already emitted). -/
def dedupFirst (seen : List String) : List (String × String) → List (String × String)
  | [] => []
  | (f, m) :: rest =>
      if f ∈ seen then dedupFirst seen rest
      else (f, m) :: dedupFirst (f :: seen) rest

/-- Modelled from the spec: `src/utils/getValidationErrors` is imported at
line 21 but its source is not in the provided tree; the spec (§4.1)
describes its contract as "a mapping from field name to first failing
error message".  From the collected Yup failures it keeps, for each field,
the first message, in first-occurrence order. -/
def getValidationErrors (errs : List (String × String)) : List (String × String) :=
  dedupFirst [] errs

/-- The file object appended as the `avatar` field of the multipart body
(lines 154-158 and 177-181): `{ type: 'image/jpeg', name: '<id>.jpg',
uri: response.uri }`.  The `uri` is optional because the image-picker
response carries no `uri` when the user cancelled. -/
structure AvatarFile where
  type : String
  name : String
  uri : Option String
deriving Repr, DecidableEq

/-- The image-picker callback argument: on cancellation the external
library invokes the callback with `didCancel: true` and no `uri`; on a
successful capture it carries the resulting file `uri`. -/
structure CaptureResponse where
  didCancel : Bool
  uri : Option String
deriving Repr, DecidableEq

/-- The options object passed to `launchCamera` / `launchImageLibrary`
(lines 146-150 and 170-173).  `saveToPhotos` is absent from the gallery
call, hence optional. -/
structure PickerOptions where
  mediaType : String
  quality : ℚ
  saveToPhotos : Option Bool
deriving Repr, DecidableEq

/-- The observable side effects the Profile screen performs, in the order
it performs them: `formRef.current?.setErrors`, the two API requests, the
session-store `updateUser`, `Alert.alert` (title and optional message),
`navigation.goBack()`, and the avatar-modal toggle. -/
inductive Effect where
  | setErrors (errs : List (String × String))
  | apiPut (path : String) (body : List (String × String))
  | apiPatch (path : String) (field : String) (file : AvatarFile)
  | updateUser (u : User)
  | alert (title : String) (message : Option String)
  | goBack
  | toggleModal
deriving Repr, DecidableEq

/-- The submission handler `handleProfile` (lines 62-132) as the trace of
effects of one attempt.  `put` is the outcome of the `await api.put`
call: `.ok u` when the server answers with user record `u` (its
`response.data`), `.error ()` for any rejection.  The trace: errors are
cleared first; a failed validation maps the collected failures through
`getValidationErrors` into `setErrors` and returns before any request; a
passed validation issues `PUT /profile` with the built payload, then on
success replaces the session user, alerts success, and navigates back,
while a rejected call lands in the generic `catch` alert. -/
def handleProfile (d : ProfileFormData) (put : Except Unit User) : List Effect :=
  Effect.setErrors [] ::
  (if validateProfile d = [] then
    Effect.apiPut "/profile" (buildFormData d) ::
    (match put with
     | .ok u =>
        [Effect.updateUser u,
         Effect.alert "Perfil atualizado com sucesso!" none,
         Effect.goBack]
     | .error _ =>
        [Effect.alert "Erro na atualização do perfil"
          (some "Ocorreu um erro ao atualizar seu perfil, tente novamente.")])
   else
    [Effect.setErrors (getValidationErrors (validateProfile d))])

/-- The screen and collaborator state the effects act on: the session
user, the form's field values and field-error mapping, the list of alerts
shown so far, how often the screen navigated back, and the avatar-modal
visibility. -/
structure ScreenState where
  sessionUser : User
  fieldValues : ProfileFormData
  fieldErrors : List (String × String)
  alerts : List (String × Option String)
  backCount : Nat
  modalVisible : Bool
deriving Repr, DecidableEq

/-- Interpretation of one effect.  API requests change no local state;
`updateUser` replaces the session user wholesale (the spec's session
store exposes a whole-record replace); nothing writes the form's field
values, since `handleProfile` never touches them. -/
def applyEffect (s : ScreenState) : Effect → ScreenState
  | .setErrors errs => { s with fieldErrors := errs }
  | .apiPut _ _ => s
  | .apiPatch _ _ _ => s
  | .updateUser u => { s with sessionUser := u }
  | .alert t m => { s with alerts := s.alerts ++ [(t, m)] }
  | .goBack => { s with backCount := s.backCount + 1 }
  | .toggleModal => { s with modalVisible := !s.modalVisible }

/-- Run a trace of effects over a state, first to last. -/
def runEffects (s : ScreenState) (es : List Effect) : ScreenState :=
  es.foldl applyEffect s

/-- The options object of `updatePhotoFromCamera` (lines 146-150):
`{ mediaType: 'photo', saveToPhotos: true, quality: 0.5 }`. -/
def cameraOptions : PickerOptions :=
  { mediaType := "photo", quality := (1 : ℚ)/2, saveToPhotos := some true }

/-- The options object of `updatePhotoFromGallery` (lines 170-173):
`{ mediaType: 'photo', quality: 0.5 }` — no `saveToPhotos`. -/
def galleryOptions : PickerOptions :=
  { mediaType := "photo", quality := (1 : ℚ)/2, saveToPhotos := none }

/-- The callback `updatePhotoFromCamera` hands to `launchCamera`
(lines 151-164): unconditionally build a `FormData` with the single field
`avatar` — file named `<user.id>.jpg`, type `image/jpeg`, uri from the
response — PATCH it to `users/avatar`, and on a successful upload
(`patch = .ok u`) replace the session user and toggle the modal.  A
rejected upload (`.error`) aborts the callback at the `await` with no
further effect (and no catch).  There is no `didCancel` check. -/
def cameraUploadCallback (userId : String) (response : CaptureResponse)
    (patch : Except Unit User) : List Effect :=
  Effect.apiPatch "users/avatar" "avatar"
      { type := "image/jpeg", name := userId ++ ".jpg", uri := response.uri } ::
  (match patch with
   | .ok u => [Effect.updateUser u, Effect.toggleModal]
   | .error _ => [])

/-- The callback `updatePhotoFromGallery` hands to `launchImageLibrary`
(lines 174-187); the source body is written out identically to the camera
one: build the same single-field multipart body, PATCH `users/avatar`,
and on success replace the session user and toggle the modal.  No
`didCancel` check here either. -/
def galleryUploadCallback (userId : String) (response : CaptureResponse)
    (patch : Except Unit User) : List Effect :=
  Effect.apiPatch "users/avatar" "avatar"
      { type := "image/jpeg", name := userId ++ ".jpg", uri := response.uri } ::
  (match patch with
   | .ok u => [Effect.updateUser u, Effect.toggleModal]
   | .error _ => [])

/-- `updatePhotoFromCamera` (lines 144-166) in full: the configuration it
passes to the external capture service together with the effect trace of
its callback on a given capture response and upload outcome. -/
def updatePhotoFromCamera (userId : String) (response : CaptureResponse)
    (patch : Except Unit User) : PickerOptions × List Effect :=
  (cameraOptions, cameraUploadCallback userId response patch)

/-- `updatePhotoFromGallery` (lines 168-189) in full: its configuration
and its callback's effect trace. -/
def updatePhotoFromGallery (userId : String) (response : CaptureResponse)
    (patch : Except Unit User) : PickerOptions × List Effect :=
  (galleryOptions, galleryUploadCallback userId response patch)

example : validateProfile ⟨"Ana", "ana@x.com", "", "", ""⟩ = [] := by decide
example : buildFormData ⟨"Ana", "ana@x.com", "", "", ""⟩ =
    [("name", "Ana"), ("email", "ana@x.com")] := by decide
example : validateProfile ⟨"Ana", "ana@x.com", "123", "new1", "new2"⟩ =
    [("password_confirmation", "Confirmação incorreta")] := by decide
example : isEmailShape "bad" = false := by decide
example : isEmailShape "ana@x.com" = true := by decide

/-- C1: on a validated input the payload always carries `name` and `email`
with their original values; the keys `old_password`, `password`,
`password_confirmation` appear (with their original values) exactly when
`old_password` is non-empty, and for an empty `old_password` none of the
three appears at all. -/
theorem payload_builder_correct (d : ProfileFormData)
    (_hv : validateProfile d = []) :
    ("name", d.name) ∈ buildFormData d ∧
    ("email", d.email) ∈ buildFormData d ∧
    (((∃ v, ("old_password", v) ∈ buildFormData d) ∨
      (∃ v, ("password", v) ∈ buildFormData d) ∨
      (∃ v, ("password_confirmation", v) ∈ buildFormData d)) ↔
        d.old_password ≠ "") ∧
    (d.old_password ≠ "" →
      ("old_password", d.old_password) ∈ buildFormData d ∧
      ("password", d.password) ∈ buildFormData d ∧
      ("password_confirmation", d.password_confirmation) ∈ buildFormData d) := by
  by_cases h : d.old_password = "" <;> simp [buildFormData, h]

/-- Witness for C1 at a concrete validated input with a non-empty
`old_password`. -/
theorem payload_builder_correct_witness :
    ("name", "Ana") ∈ buildFormData ⟨"Ana", "ana@x.com", "123", "new1", "new1"⟩ ∧
    ("old_password", "123") ∈ buildFormData ⟨"Ana", "ana@x.com", "123", "new1", "new1"⟩ := by
  have h := payload_builder_correct ⟨"Ana", "ana@x.com", "123", "new1", "new1"⟩ (by decide)
  exact ⟨h.1, (h.2.2.2 (by decide)).1⟩

/-- C2: with `old_password` empty, validation puts no error at all on
`password`, no required error on `password_confirmation`, and no error on
`password_confirmation` when it equals `password`; but whenever
`password_confirmation` differs from `password` the mismatch error
"Confirmação incorreta" is reported on `password_confirmation`. -/
theorem validation_empty_old_password (d : ProfileFormData)
    (h : d.old_password = "") :
    (∀ m, ("password", m) ∉ validateProfile d) ∧
    ("password_confirmation", "Campo obrigatório") ∉ validateProfile d ∧
    (d.password_confirmation = d.password →
      ∀ m, ("password_confirmation", m) ∉ validateProfile d) ∧
    (d.password_confirmation ≠ d.password →
      ("password_confirmation", "Confirmação incorreta") ∈ validateProfile d) := by
  by_cases hc : d.password_confirmation = d.password <;>
    simp [validateProfile, nameErrors, emailErrors, passwordErrors,
      confirmationErrors, h, hc] <;>
    split_ifs <;> simp_all

/-- Witness for C2: empty `old_password`, empty `password`, mismatching
confirmation. -/
theorem validation_empty_old_password_witness :
    ("password_confirmation", "Confirmação incorreta") ∈
      validateProfile ⟨"Ana", "ana@x.com", "", "", "x"⟩ :=
  (validation_empty_old_password ⟨"Ana", "ana@x.com", "", "", "x"⟩ rfl).2.2.2
    (by decide)

/-- C3: with `old_password` non-empty, an empty `password`, an empty
`password_confirmation`, or a confirmation differing from `password` each
make the input invalid; and an input passing all three with non-empty
`name` and a well-shaped `email` is valid. -/
theorem validation_nonempty_old_password (d : ProfileFormData)
    (h : d.old_password ≠ "") :
    (d.password = "" → validateProfile d ≠ []) ∧
    (d.password_confirmation = "" → validateProfile d ≠ []) ∧
    (d.password_confirmation ≠ d.password → validateProfile d ≠ []) ∧
    (d.name ≠ "" → isEmailShape d.email = true → d.password ≠ "" →
      d.password_confirmation ≠ "" → d.password_confirmation = d.password →
      validateProfile d = []) := by
  refine ⟨fun h1 => ?_, fun h1 => ?_, fun h1 => ?_,
    fun hn he hp hcne hceq => ?_⟩
  · simp [validateProfile, nameErrors, emailErrors, passwordErrors,
      confirmationErrors, h, h1]
  · simp [validateProfile, nameErrors, emailErrors, passwordErrors,
      confirmationErrors, h, h1]
  · simp [validateProfile, nameErrors, emailErrors, passwordErrors,
      confirmationErrors, h, h1]
  · have hemail : d.email ≠ "" := by
      intro h0
      rw [h0] at he
      exact absurd he (by decide)
    simp [validateProfile, nameErrors, emailErrors, passwordErrors,
      confirmationErrors, h, hn, he, hp, hcne, hceq, hemail]

/-- Witness for C3: the invalid branches at `⟨Ana, ana@x.com, 123, a, b⟩`
and the valid branch at `⟨Ana, ana@x.com, 123, new1, new1⟩`. -/
theorem validation_nonempty_old_password_witness :
    validateProfile ⟨"Ana", "ana@x.com", "123", "a", "b"⟩ ≠ [] ∧
    validateProfile ⟨"Ana", "ana@x.com", "123", "new1", "new1"⟩ = [] :=
  ⟨(validation_nonempty_old_password ⟨"Ana", "ana@x.com", "123", "a", "b"⟩
      (by decide)).2.2.1 (by decide),
   (validation_nonempty_old_password ⟨"Ana", "ana@x.com", "123", "new1", "new1"⟩
      (by decide)).2.2.2 (by decide) (by decide) (by decide) (by decide) rfl⟩

/-- Every entry any single field rule produces is in the collected list:
the schema runs with `abortEarly: false`, so no field's failure hides
another's. -/
lemma mem_validateProfile_iff (d : ProfileFormData) (p : String × String) :
    p ∈ validateProfile d ↔
      p ∈ nameErrors d ∨ p ∈ emailErrors d ∨ p ∈ passwordErrors d ∨
      p ∈ confirmationErrors d := by
  simp [validateProfile]

/-- A key occurring in the input list still occurs (with its first
message) after `dedupFirst`, provided it was not already emitted. -/
lemma dedupFirst_covers (l : List (String × String)) :
    ∀ (seen : List String) (f m : String),
      (f, m) ∈ l → f ∉ seen → ∃ m2, (f, m2) ∈ dedupFirst seen l := by
  induction l with
  | nil => intro seen f m hm _; cases hm
  | cons a rest ih =>
    intro seen f m hm hf
    obtain ⟨g, n⟩ := a
    rcases List.mem_cons.mp hm with heq | hrest
    · cases heq
      simp only [dedupFirst]
      rw [if_neg hf]
      exact ⟨m, List.mem_cons_self _ _⟩
    · by_cases hg : g ∈ seen
      · simp only [dedupFirst]
        rw [if_pos hg]
        exact ih seen f m hrest hf
      · simp only [dedupFirst]
        rw [if_neg hg]
        by_cases hfg : f = g
        · exact ⟨n, by rw [hfg]; exact List.mem_cons_self _ _⟩
        · have hf2 : f ∉ g :: seen := by
            simp only [List.mem_cons]
            exact fun hc => hc.elim hfg hf
          obtain ⟨m2, hm2⟩ := ih (g :: seen) f m hrest hf2
          exact ⟨m2, List.mem_cons_of_mem _ hm2⟩

/-- Every failing field keeps an entry in the field-to-message mapping. -/
lemma getValidationErrors_covers (errs : List (String × String))
    (f m : String) (hm : (f, m) ∈ errs) :
    ∃ m2, (f, m2) ∈ getValidationErrors errs :=
  dedupFirst_covers errs [] f m hm (List.not_mem_nil f)

/-- C4: validation evaluates all fields — each field's failure is
reported no matter how the other fields fare, and every failing field
gets an entry in the mapping attached for display; on any validation
failure the attempt's whole trace is the error reset followed by
attaching the mapping, with no API request; and the scenario
`{name: "", email: "bad", old_password: "", password: "",
password_confirmation: ""}` is invalid with errors attached to both
`name` and `email`. -/
theorem validation_collects_all_failures :
    (∀ d : ProfileFormData, d.name = "" →
      ("name", "Nome obrigatório") ∈ validateProfile d) ∧
    (∀ d : ProfileFormData, d.email = "" →
      ("email", "E-mail obrigatório") ∈ validateProfile d) ∧
    (∀ d : ProfileFormData, d.email ≠ "" → isEmailShape d.email = false →
      ("email", "Digite um e-mail válido") ∈ validateProfile d) ∧
    (∀ d : ProfileFormData, d.old_password ≠ "" → d.password = "" →
      ("password", "Campo obrigatório") ∈ validateProfile d) ∧
    (∀ d : ProfileFormData, d.password_confirmation ≠ d.password →
      ("password_confirmation", "Confirmação incorreta") ∈ validateProfile d) ∧
    (∀ (d : ProfileFormData) (f m : String), (f, m) ∈ validateProfile d →
      ∃ m2, (f, m2) ∈ getValidationErrors (validateProfile d)) ∧
    (∀ (d : ProfileFormData) (put : Except Unit User), validateProfile d ≠ [] →
      handleProfile d put =
        [Effect.setErrors [],
         Effect.setErrors (getValidationErrors (validateProfile d))] ∧
      ∀ p body, Effect.apiPut p body ∉ handleProfile d put) ∧
    (validateProfile ⟨"", "bad", "", "", ""⟩ ≠ [] ∧
     ("name", "Nome obrigatório") ∈
       getValidationErrors (validateProfile ⟨"", "bad", "", "", ""⟩) ∧
     ("email", "Digite um e-mail válido") ∈
       getValidationErrors (validateProfile ⟨"", "bad", "", "", ""⟩)) := by
  refine ⟨fun d h => ?_, fun d h => ?_, fun d h1 h2 => ?_, fun d h1 h2 => ?_,
    fun d h => ?_, fun d f m hm => getValidationErrors_covers _ f m hm,
    fun d put hne => ⟨?_, fun p body => ?_⟩, by decide⟩
  · rw [mem_validateProfile_iff]
    exact Or.inl (by simp [nameErrors, h])
  · rw [mem_validateProfile_iff]
    exact Or.inr (Or.inl (by simp [emailErrors, h]))
  · rw [mem_validateProfile_iff]
    exact Or.inr (Or.inl (by simp [emailErrors, h1, h2]))
  · rw [mem_validateProfile_iff]
    exact Or.inr (Or.inr (Or.inl (by simp [passwordErrors, h1, h2])))
  · rw [mem_validateProfile_iff]
    exact Or.inr (Or.inr (Or.inr (by simp [confirmationErrors, h])))
  · simp [handleProfile, hne]
  · simp [handleProfile, hne]

/-- Witness for C4, instantiating each implication at a concrete input:
the scenario input and, for the per-field rules, small inputs failing the
relevant rule. -/
theorem validation_collects_all_failures_witness :
    ("name", "Nome obrigatório") ∈ validateProfile ⟨"", "bad", "", "", ""⟩ ∧
    ("email", "E-mail obrigatório") ∈ validateProfile ⟨"Ana", "", "", "", ""⟩ ∧
    ("email", "Digite um e-mail válido") ∈ validateProfile ⟨"Ana", "bad", "", "", ""⟩ ∧
    ("password", "Campo obrigatório") ∈ validateProfile ⟨"Ana", "ana@x.com", "123", "", ""⟩ ∧
    ("password_confirmation", "Confirmação incorreta") ∈
      validateProfile ⟨"Ana", "ana@x.com", "123", "a", "b"⟩ ∧
    (∃ m2, ("name", m2) ∈ getValidationErrors (validateProfile ⟨"", "bad", "", "", ""⟩)) ∧
    handleProfile ⟨"", "bad", "", "", ""⟩ (.error ()) =
      [Effect.setErrors [],
       Effect.setErrors (getValidationErrors (validateProfile ⟨"", "bad", "", "", ""⟩))] :=
  ⟨validation_collects_all_failures.1 ⟨"", "bad", "", "", ""⟩ rfl,
   validation_collects_all_failures.2.1 ⟨"Ana", "", "", "", ""⟩ rfl,
   validation_collects_all_failures.2.2.1 ⟨"Ana", "bad", "", "", ""⟩ (by decide) (by decide),
   validation_collects_all_failures.2.2.2.1 ⟨"Ana", "ana@x.com", "123", "", ""⟩
     (by decide) rfl,
   validation_collects_all_failures.2.2.2.2.1 ⟨"Ana", "ana@x.com", "123", "a", "b"⟩
     (by decide),
   validation_collects_all_failures.2.2.2.2.2.1 ⟨"", "bad", "", "", ""⟩ "name"
     "Nome obrigatório" (by decide),
   (validation_collects_all_failures.2.2.2.2.2.2.1 ⟨"", "bad", "", "", ""⟩
     (.error ()) (by decide)).1⟩

/-- C5: when validation passes and the `PUT /profile` call is rejected
with a non-validation error, the attempt appends exactly one alert — the
generic failure alert — and leaves the session user and the form's field
values untouched, and does not navigate away. -/
theorem failed_submit_preserves_state (d : ProfileFormData) (s : ScreenState)
    (hv : validateProfile d = []) :
    (runEffects s (handleProfile d (.error ()))).alerts =
      s.alerts ++ [("Erro na atualização do perfil",
        some "Ocorreu um erro ao atualizar seu perfil, tente novamente.")] ∧
    (runEffects s (handleProfile d (.error ()))).sessionUser = s.sessionUser ∧
    (runEffects s (handleProfile d (.error ()))).fieldValues = s.fieldValues ∧
    (runEffects s (handleProfile d (.error ()))).backCount = s.backCount := by
  simp [handleProfile, hv, runEffects, applyEffect]

/-- Witness for C5 at the valid input `⟨Ana, ana@x.com, "", "", ""⟩` over
a concrete initial state. -/
theorem failed_submit_preserves_state_witness :
    (runEffects
        ⟨⟨"1", "Ana", "ana@x.com", "a.png"⟩, ⟨"Ana", "ana@x.com", "", "", ""⟩,
          [], [], 0, false⟩
        (handleProfile ⟨"Ana", "ana@x.com", "", "", ""⟩ (.error ()))).sessionUser =
      ⟨"1", "Ana", "ana@x.com", "a.png"⟩ ∧
    (runEffects
        ⟨⟨"1", "Ana", "ana@x.com", "a.png"⟩, ⟨"Ana", "ana@x.com", "", "", ""⟩,
          [], [], 0, false⟩
        (handleProfile ⟨"Ana", "ana@x.com", "", "", ""⟩ (.error ()))).alerts =
      [("Erro na atualização do perfil",
        some "Ocorreu um erro ao atualizar seu perfil, tente novamente.")] := by
  have h := failed_submit_preserves_state ⟨"Ana", "ana@x.com", "", "", ""⟩
    ⟨⟨"1", "Ana", "ana@x.com", "a.png"⟩, ⟨"Ana", "ana@x.com", "", "", ""⟩,
      [], [], 0, false⟩ (by decide)
  exact ⟨h.2.1, h.1⟩

/-- C6: when validation passes and the remote call answers with user
record `u`, the attempt's trace is exactly the error reset, the PUT
request, then — once each and in this strict order — the session-user
replacement with exactly `u`, the success alert, and navigation back;
running the trace indeed leaves session user `u`, one new success alert,
and one more navigation-back. -/
theorem successful_submit_effect_order (d : ProfileFormData) (u : User)
    (s : ScreenState) (hv : validateProfile d = []) :
    handleProfile d (.ok u) =
      [Effect.setErrors [],
       Effect.apiPut "/profile" (buildFormData d),
       Effect.updateUser u,
       Effect.alert "Perfil atualizado com sucesso!" none,
       Effect.goBack] ∧
    (runEffects s (handleProfile d (.ok u))).sessionUser = u ∧
    (runEffects s (handleProfile d (.ok u))).alerts =
      s.alerts ++ [("Perfil atualizado com sucesso!", none)] ∧
    (runEffects s (handleProfile d (.ok u))).backCount = s.backCount + 1 := by
  simp [handleProfile, hv, runEffects, applyEffect]

/-- Witness for C6 at the valid input `⟨Ana, ana@x.com, "", "", ""⟩`,
response user `⟨1, Ana B, ana@x.com, b.png⟩`, over a concrete state. -/
theorem successful_submit_effect_order_witness :
    handleProfile ⟨"Ana", "ana@x.com", "", "", ""⟩ (.ok ⟨"1", "Ana B", "ana@x.com", "b.png"⟩) =
      [Effect.setErrors [],
       Effect.apiPut "/profile" [("name", "Ana"), ("email", "ana@x.com")],
       Effect.updateUser ⟨"1", "Ana B", "ana@x.com", "b.png"⟩,
       Effect.alert "Perfil atualizado com sucesso!" none,
       Effect.goBack] ∧
    (runEffects
        ⟨⟨"1", "Ana", "ana@x.com", "a.png"⟩, ⟨"Ana", "ana@x.com", "", "", ""⟩,
          [], [], 0, false⟩
        (handleProfile ⟨"Ana", "ana@x.com", "", "", ""⟩
          (.ok ⟨"1", "Ana B", "ana@x.com", "b.png"⟩))).sessionUser =
      ⟨"1", "Ana B", "ana@x.com", "b.png"⟩ := by
  have h := successful_submit_effect_order ⟨"Ana", "ana@x.com", "", "", ""⟩
    ⟨"1", "Ana B", "ana@x.com", "b.png"⟩
    ⟨⟨"1", "Ana", "ana@x.com", "a.png"⟩, ⟨"Ana", "ana@x.com", "", "", ""⟩,
      [], [], 0, false⟩ (by decide)
  refine ⟨?_, h.2.1⟩
  rw [h.1]
  rfl

/-- C10: every attempt's trace starts by resetting the field-error
mapping to empty, and after running the attempt over any prior state the
displayed mapping is exactly the one computed from the current attempt's
validation — in particular empty whenever validation passes, whether the
remote call succeeds or fails. -/
theorem error_mapping_reset_each_attempt (d : ProfileFormData)
    (put : Except Unit User) (s : ScreenState) :
    (handleProfile d put).head? = some (Effect.setErrors []) ∧
    (runEffects s (handleProfile d put)).fieldErrors =
      getValidationErrors (validateProfile d) ∧
    (validateProfile d = [] →
      (runEffects s (handleProfile d put)).fieldErrors = []) := by
  by_cases hv : validateProfile d = []
  · cases put <;>
      simp [handleProfile, hv, runEffects, applyEffect, getValidationErrors,
        dedupFirst]
  · simp [handleProfile, hv, runEffects, applyEffect]

/-- Witness for C10: a failing attempt stale from a previous attempt's
errors ends with exactly the current attempt's errors, and a passing
attempt ends with the empty mapping. -/
theorem error_mapping_reset_each_attempt_witness :
    (runEffects
        ⟨⟨"1", "Ana", "ana@x.com", "a.png"⟩, ⟨"", "bad", "", "", ""⟩,
          [("email", "stale message")], [], 0, false⟩
        (handleProfile ⟨"", "bad", "", "", ""⟩ (.error ()))).fieldErrors =
      getValidationErrors (validateProfile ⟨"", "bad", "", "", ""⟩) ∧
    (runEffects
        ⟨⟨"1", "Ana", "ana@x.com", "a.png"⟩, ⟨"Ana", "ana@x.com", "", "", ""⟩,
          [("email", "stale message")], [], 0, false⟩
        (handleProfile ⟨"Ana", "ana@x.com", "", "", ""⟩ (.ok ⟨"1", "Ana", "ana@x.com", "a.png"⟩))).fieldErrors =
      [] :=
  ⟨(error_mapping_reset_each_attempt ⟨"", "bad", "", "", ""⟩ (.error ())
      ⟨⟨"1", "Ana", "ana@x.com", "a.png"⟩, ⟨"", "bad", "", "", ""⟩,
        [("email", "stale message")], [], 0, false⟩).2.1,
   (error_mapping_reset_each_attempt ⟨"Ana", "ana@x.com", "", "", ""⟩
      (.ok ⟨"1", "Ana", "ana@x.com", "a.png"⟩)
      ⟨⟨"1", "Ana", "ana@x.com", "a.png"⟩, ⟨"Ana", "ana@x.com", "", "", ""⟩,
        [("email", "stale message")], [], 0, false⟩).2.2 (by decide)⟩

/-- C7: for a successful capture (not cancelled, carrying a file uri),
both callbacks PATCH the avatar endpoint with a single multipart field
`avatar` whose file is named `<user_id>.jpg` — whatever extension the
source uri has — and typed `image/jpeg`; on upload success the session
user is replaced with the returned record first and the modal toggled
closed after. -/
theorem avatar_upload_payload_and_success (userId uri : String) (u : User)
    (resp : CaptureResponse) (_hc : resp.didCancel = false)
    (hu : resp.uri = some uri) :
    cameraUploadCallback userId resp (.ok u) =
      [Effect.apiPatch "users/avatar" "avatar"
         { type := "image/jpeg", name := userId ++ ".jpg", uri := some uri },
       Effect.updateUser u, Effect.toggleModal] ∧
    galleryUploadCallback userId resp (.ok u) =
      [Effect.apiPatch "users/avatar" "avatar"
         { type := "image/jpeg", name := userId ++ ".jpg", uri := some uri },
       Effect.updateUser u, Effect.toggleModal] ∧
    (∀ s : ScreenState, s.modalVisible = true →
      (runEffects s (cameraUploadCallback userId resp (.ok u))).sessionUser = u ∧
      (runEffects s (cameraUploadCallback userId resp (.ok u))).modalVisible = false ∧
      (runEffects s (galleryUploadCallback userId resp (.ok u))).sessionUser = u ∧
      (runEffects s (galleryUploadCallback userId resp (.ok u))).modalVisible = false) := by
  refine ⟨?_, ?_, fun s hs => ?_⟩
  · simp [cameraUploadCallback, hu]
  · simp [galleryUploadCallback, hu]
  · simp [cameraUploadCallback, galleryUploadCallback, hu, runEffects,
      applyEffect, hs]

/-- Witness for C7: a gallery pick of a `.png` file still uploads as
`7.jpg` of type `image/jpeg`, and the open modal ends closed with the
session user replaced. -/
theorem avatar_upload_payload_and_success_witness :
    galleryUploadCallback "7" ⟨false, some "file:///tmp/pic.png"⟩
        (.ok ⟨"7", "Ana", "ana@x.com", "b.png"⟩) =
      [Effect.apiPatch "users/avatar" "avatar"
         { type := "image/jpeg", name := "7.jpg", uri := some "file:///tmp/pic.png" },
       Effect.updateUser ⟨"7", "Ana", "ana@x.com", "b.png"⟩, Effect.toggleModal] ∧
    (runEffects
        ⟨⟨"7", "Ana", "ana@x.com", "a.png"⟩, ⟨"Ana", "ana@x.com", "", "", ""⟩,
          [], [], 0, true⟩
        (galleryUploadCallback "7" ⟨false, some "file:///tmp/pic.png"⟩
          (.ok ⟨"7", "Ana", "ana@x.com", "b.png"⟩))).modalVisible = false := by
  have h := avatar_upload_payload_and_success "7" "file:///tmp/pic.png"
    ⟨"7", "Ana", "ana@x.com", "b.png"⟩ ⟨false, some "file:///tmp/pic.png"⟩
    rfl rfl
  refine ⟨?_, (h.2.2
    ⟨⟨"7", "Ana", "ana@x.com", "a.png"⟩, ⟨"Ana", "ana@x.com", "", "", ""⟩,
      [], [], 0, true⟩ rfl).2.2.2⟩
  rw [h.2.1]
  rfl

/-- C8: the camera and gallery workflows run the identical callback — the
same multipart payload, upload call, session-user replacement and modal
toggle for every capture response and upload outcome — and differ only in
the options handed to the capture service: both use mediaType `photo` and
quality `0.5`, the camera variant alone adds `saveToPhotos: true`. -/
theorem camera_gallery_equivalence :
    (∀ (userId : String) (resp : CaptureResponse) (patch : Except Unit User),
      (updatePhotoFromCamera userId resp patch).2 =
        (updatePhotoFromGallery userId resp patch).2) ∧
    (∀ (userId : String) (resp : CaptureResponse) (patch : Except Unit User),
      (updatePhotoFromCamera userId resp patch).1 = cameraOptions ∧
      (updatePhotoFromGallery userId resp patch).1 = galleryOptions) ∧
    cameraOptions.mediaType = "photo" ∧ galleryOptions.mediaType = "photo" ∧
    cameraOptions.quality = 1/2 ∧ galleryOptions.quality = 1/2 ∧
    cameraOptions.saveToPhotos = some true ∧
    galleryOptions.saveToPhotos = none ∧
    cameraOptions = { galleryOptions with saveToPhotos := some true } :=
  ⟨fun _ _ _ => rfl, fun _ _ _ => ⟨rfl, rfl⟩, rfl, rfl, rfl, rfl, rfl, rfl, rfl⟩

/-- C9 (counterexample to the claim, exhibiting the code bug): neither
callback checks `didCancel`, so a cancelled capture — the library invokes
the callback with `didCancel: true` and no uri — still issues the avatar
upload request with an absent uri; and were that upload to succeed, the
session user would be replaced and the modal toggled all the same. -/
theorem cancelled_capture_still_uploads :
    cameraUploadCallback "7" ⟨true, none⟩ (.error ()) =
      [Effect.apiPatch "users/avatar" "avatar"
         { type := "image/jpeg", name := "7.jpg", uri := none }] ∧
    galleryUploadCallback "7" ⟨true, none⟩ (.ok ⟨"7", "Ana", "ana@x.com", "b.png"⟩) =
      [Effect.apiPatch "users/avatar" "avatar"
         { type := "image/jpeg", name := "7.jpg", uri := none },
       Effect.updateUser ⟨"7", "Ana", "ana@x.com", "b.png"⟩,
       Effect.toggleModal] := by
  decide
